import Mathlib

/-!
Verification of the filter/query engine of `Off-chain/Filter.py`.

The engine evaluates a criterion (a Python dict with keys `elements`,
`value`, `field`, `operator`, `event`) against a materialized sequence of
records and composes result lists with AND/OR steps.  We embed the Python
dynamic semantics shallowly: Python values that occur in the engine are
`Value` (int, str, bool), a raised exception is a `PyError`, a record is a
`Rec` (an entity object with fixed attributes, or an event dict), and list
mutation is made explicit by threading the list state; a function that can
raise returns the final list state paired with `Option PyError` (`none` =
normal return).
-/

/-- Python values flowing through the engine: product ids and carbon
footprints are ints, names and addresses are strings, `isEnded` is a bool. -/
inductive Value where
  | int (n : Int)
  | str (s : String)
  | bool (b : Bool)
  deriving DecidableEq, Repr

/-- Exceptions the engine's dynamic accesses can raise: `getattr` on a
missing attribute, a dict lookup on a missing key, and an unsupported
comparison between operand types. -/
inductive PyError where
  | attributeError
  | keyError
  | typeError
  deriving DecidableEq, Repr

/-- The five comparison operators `select_operator` can place in
`criteria["operator"]` (operator.eq/gt/ge/lt/le). -/
inductive Op where
  | eq
  | gt
  | ge
  | lt
  | le
  deriving DecidableEq, Repr

/-- A product record as returned by `BlockChain.get_all_products`; the
attributes are exactly those the off-chain code reads (`productId`, `name`,
`address`, `CF`, `isEnded`). -/
structure EntityRec where
  productId : Int
  name : String
  address : String
  CF : Int
  isEnded : Bool
  deriving DecidableEq, Repr

/-- A candidate record: an entity object, or an event whose `args` dict is
modelled as an association list (events from `event_logs` carry `pId`,
`supplier`, `transformer`, `name`, ... in `args`). -/
inductive Rec where
  | entity (p : EntityRec)
  | event (args : List (String × Value))
  deriving DecidableEq, Repr

/-- The `criteria` dict built by `filterProducts`: `elements` is the record
sequence the zero-argument fetch function returns, and `event` selects the
extraction branch in `simpleFilter`. -/
structure Criteria where
  elements : List Rec
  value : Value
  field : String
  op : Op
  event : Bool

/-- Python's numeric view of a value: `bool` is a subtype of `int`
(`True == 1`), strings are not numeric. -/
def numView : Value → Option Int
  | Value.int n => some n
  | Value.bool b => some (if b then 1 else 0)
  | Value.str _ => none

/-- Python `==` on the engine's value types: never raises; numeric values
compare through `numView`, strings compare to strings, and values of
unrelated types are unequal. -/
def pyEq : Value → Value → Bool
  | Value.str s, Value.str t => s = t
  | a, b =>
    match numView a, numView b with
    | some m, some n => m = n
    | _, _ => false

/-- Lexicographic order on code-point sequences, the order Python uses to
compare strings. -/
def strLtB : List Char → List Char → Bool
  | [], [] => false
  | [], _ :: _ => true
  | _ :: _, [] => false
  | a :: as, b :: bs =>
    if a.val < b.val then true
    else if b.val < a.val then false
    else strLtB as bs

/-- Python `s < t` on strings. -/
def pyStrLt (s t : String) : Bool := strLtB s.data t.data

/-- Python `<`: defined between two strings (lexicographic) and between two
numeric values; any other pairing raises `TypeError` (`none`). -/
def pyLt : Value → Value → Option Bool
  | Value.str s, Value.str t => some (pyStrLt s t)
  | a, b =>
    match numView a, numView b with
    | some m, some n => some (decide (m < n))
    | _, _ => none

/-- Python `<=`, with the same domain as `pyLt`; on a total order `s ≤ t`
is `¬ t < s`. -/
def pyLe : Value → Value → Option Bool
  | Value.str s, Value.str t => some (!pyStrLt t s)
  | a, b =>
    match numView a, numView b with
    | some m, some n => some (decide (m ≤ n))
    | _, _ => none

/-- Apply `criteria["operator"]` to (extracted value, criteria value);
`none` is a raised `TypeError`.  `a > b` and `a >= b` are the reversed
strict/non-strict orders, as for Python's int/str/bool. -/
def applyOp : Op → Value → Value → Option Bool
  | Op.eq, a, b => some (pyEq a b)
  | Op.gt, a, b => pyLt b a
  | Op.ge, a, b => pyLe b a
  | Op.lt, a, b => pyLt a b
  | Op.le, a, b => pyLe a b

/-- Python `getattr` on a product object: only the five declared attributes
exist; any other name raises `AttributeError` (`none`). -/
def getattrEntity (p : EntityRec) : String → Option Value
  | "productId" => some (Value.int p.productId)
  | "name" => some (Value.str p.name)
  | "address" => some (Value.str p.address)
  | "CF" => some (Value.int p.CF)
  | "isEnded" => some (Value.bool p.isEnded)
  | _ => none

/-- Dict lookup `d[k]` on an event's `args`; `none` is a raised `KeyError`. -/
def dlookup (args : List (String × Value)) (k : String) : Option Value :=
  match args with
  | [] => none
  | (k₁, v) :: rest => if k₁ = k then some v else dlookup rest k

/-- One iteration of `simpleFilter`'s loop body on record `e`: evaluate
`criteria["operator"](extracted, criteria["value"])` and, when it holds,
produce the product id to append (`e["args"]["pId"]` on the event branch,
`e.productId` on the entity branch).  Each dynamic access can raise. -/
def evStep (criteria : Criteria) (e : Rec) : Except PyError (Option Value) :=
  if criteria.event then
    match e with
    | Rec.entity _ => Except.error PyError.typeError
    | Rec.event args =>
      match dlookup args criteria.field with
      | none => Except.error PyError.keyError
      | some v =>
        match applyOp criteria.op v criteria.value with
        | none => Except.error PyError.typeError
        | some b =>
          if b then
            match dlookup args "pId" with
            | none => Except.error PyError.keyError
            | some pid => Except.ok (some pid)
          else Except.ok none
  else
    match e with
    | Rec.event _ => Except.error PyError.attributeError
    | Rec.entity p =>
      match getattrEntity p criteria.field with
      | none => Except.error PyError.attributeError
      | some v =>
        match applyOp criteria.op v criteria.value with
        | none => Except.error PyError.typeError
        | some b => Except.ok (if b then some (Value.int p.productId) else none)

/-- The loop of `simpleFilter` over the remaining records: appends matches
to `result` in place; a raised exception stops the loop, leaving `result`
with the appends made so far. -/
def simpleFilterGo (criteria : Criteria) : List Rec → List Value → List Value × Option PyError
  | [], result => (result, none)
  | e :: es, result =>
    match evStep criteria e with
    | Except.error err => (result, some err)
    | Except.ok none => simpleFilterGo criteria es result
    | Except.ok (some pid) => simpleFilterGo criteria es (result ++ [pid])

/-- `simpleFilter(result, criteria)`: calls `criteria["elements"]()` (here
already materialized as `criteria.elements`), scans each record, appends
the product id of every match to `result`, and returns `result` itself. -/
def simpleFilter (result : List Value) (criteria : Criteria) : List Value × Option PyError :=
  simpleFilterGo criteria criteria.elements result

/-- `orFilter(result, criteria)`: runs `simpleFilter` on the caller's list,
then returns `list(set(result))`.  Python's `set` iteration order is
unspecified, so the distinct-elements list is modelled as `List.dedup`,
which is membership-equivalent.  When `simpleFilter` raises, the exception
propagates and the caller observes the partially-appended list state. -/
def orFilter (result : List Value) (criteria : Criteria) : List Value × Option PyError :=
  match simpleFilter result criteria with
  | (r, some err) => (r, some err)
  | (r, none) => (r.dedup, none)

/-- The removal loop of `andFilter`: for each `e` of `temp2` (a copy of the
original list), if `e not in temp` then `result.remove(e)` deletes the
first occurrence of `e`.  `remove` would raise `ValueError` were `e`
absent, but since `temp2` copies `result` and each of the `count(e)`
iterations removes exactly one occurrence, the element is always present;
`List.erase` therefore models it exactly on the reachable states. -/
def pyRemoveLoop (temp : List Value) (result temp2 : List Value) : List Value :=
  temp2.foldl (fun acc e => if e ∈ temp then acc else acc.erase e) result

/-- `andFilter(result, criteria)`: evaluates the criterion into a fresh
list `temp = simpleFilter([], criteria)`, copies the caller's list to
`temp2`, and removes from `result` (in place) every element absent from
`temp`, returning `result`.  When the fresh evaluation raises, the
exception propagates before `result` is touched. -/
def andFilter (result : List Value) (criteria : Criteria) : List Value × Option PyError :=
  match simpleFilter [] criteria with
  | (_, some err) => (result, some err)
  | (temp, none) => (pyRemoveLoop temp result result, none)

/-- Python evaluates the default argument `results=[]` of `filterProducts`
once, at function-definition time; every call made without an argument
(`main.py` invokes `Filter.filterProducts` with no arguments) reuses that
one list object, and in-place appends to it persist between calls.  The
module state records the current contents of that shared default list. -/
structure ModuleState where
  filterProductsDefault : List Value

/-- The first filtering step of a session started by calling
`filterProducts()` with no arguments: the accumulated list is the shared
default object, `filters` is `simpleFilter`, and the appends mutate the
default object itself, so the updated contents are stored back into the
module state. -/
def filterProductsFirstStep (st : ModuleState) (criteria : Criteria) :
    ModuleState × (List Value × Option PyError) :=
  let r := simpleFilter st.filterProductsDefault criteria
  ({ filterProductsDefault := r.1 }, r)

/-- Heap-explicit rendering of `andFilter`, making Python's object identity
observable: the caller's list lives in a store `σ` at reference `r`;
`temp` and `temp2` are fresh values, the removal loop mutates the store at
`r`, and the function returns the reference it was given. -/
def andFilterRef (σ : Nat → List Value) (r : Nat) (criteria : Criteria) :
    (Nat → List Value) × Nat × Option PyError :=
  match simpleFilter [] criteria with
  | (_, some err) => (σ, r, some err)
  | (temp, none) =>
    let temp2 := σ r
    (fun q => if q = r then pyRemoveLoop temp (σ r) temp2 else σ q, r, none)

/-- The criterion of the spec's configuration-error example: field
ownerAddress (attribute `address` in the code), operator greater, compared
against an address string, over a snapshot containing one product. -/
def ownerGtCriteria : Criteria :=
  { elements := [Rec.entity { productId := 1, name := "p", address := "0xB", CF := 5, isEnded := false }],
    value := Value.str "0xA", field := "address", op := Op.gt, event := false }

/-- An event-source criterion naming a field absent from the event's
`args` dict. -/
def unknownFieldEventCriteria : Criteria :=
  { elements := [Rec.event [("pId", Value.int 7)]],
    value := Value.int 0, field := "missing", op := Op.eq, event := true }

/-- An entity-source criterion naming a field that is not an attribute of
the product objects. -/
def unknownFieldEntityCriteria : Criteria :=
  { elements := [Rec.entity { productId := 1, name := "p", address := "0xA", CF := 5, isEnded := false }],
    value := Value.int 0, field := "missing", op := Op.eq, event := false }

/-- Two raw-material-used events that both reference productId 7 and both
satisfy the criterion (name = "wood"). -/
def dupEventsCriteria : Criteria :=
  { elements := [Rec.event [("pId", Value.int 7), ("name", Value.str "wood")],
                 Rec.event [("pId", Value.int 7), ("name", Value.str "wood")]],
    value := Value.str "wood", field := "name", op := Op.eq, event := true }

/-- One event referencing productId 7 that satisfies the criterion. -/
def matchSevenCriteria : Criteria :=
  { elements := [Rec.event [("pId", Value.int 7), ("name", Value.str "wood")]],
    value := Value.str "wood", field := "name", op := Op.eq, event := true }

/-- A record sequence whose first event matches (productId 7) and whose
second event lacks the compared field, so scanning it raises `KeyError`
after one append has already happened. -/
def partialFailCriteria : Criteria :=
  { elements := [Rec.event [("pId", Value.int 7), ("name", Value.str "wood")],
                 Rec.event [("pId", Value.int 8)]],
    value := Value.str "wood", field := "name", op := Op.eq, event := true }

/-- An event-source criterion whose single matching event references
productId 7 (carbon footprint above the threshold). -/
def keepSevenCriteria : Criteria :=
  { elements := [Rec.event [("pId", Value.int 7), ("CF", Value.int 100)]],
    value := Value.int 50, field := "CF", op := Op.gt, event := true }

/-- Three raw-material-used events all referencing productId 7, of which
exactly one (CF = 100) satisfies the criterion CF > 50. -/
def threeEventsCriteria : Criteria :=
  { elements := [Rec.event [("pId", Value.int 7), ("CF", Value.int 100)],
                 Rec.event [("pId", Value.int 7), ("CF", Value.int 10)],
                 Rec.event [("pId", Value.int 7), ("CF", Value.int 20)]],
    value := Value.int 50, field := "CF", op := Op.gt, event := true }

/-- An invalid criterion (unknown field, ordering operator) paired with an
empty candidate sequence. -/
def emptyBogusCriteria : Criteria :=
  { elements := [], value := Value.int 0, field := "noSuchField", op := Op.gt, event := false }

example : pyEq (Value.int 1) (Value.bool true) = true := by decide
example : applyOp Op.gt (Value.str "0xB") (Value.str "0xA") = some true := by decide
example : applyOp Op.gt (Value.str "a") (Value.int 1) = none := by decide

/-- The loop of `simpleFilter` only ever appends: its outcome on an
arbitrary initial list is the initial list followed by the outcome on the
empty list, and the raised exception (if any) does not depend on the
initial list. -/
theorem simpleFilterGo_append (c : Criteria) (es : List Rec) (result : List Value) :
    simpleFilterGo c es result =
      (result ++ (simpleFilterGo c es []).1, (simpleFilterGo c es []).2) := by
  induction es generalizing result with
  | nil => simp [simpleFilterGo]
  | cons e es ih =>
    simp only [simpleFilterGo]
    cases h : evStep c e with
    | error err => simp
    | ok o =>
      cases o with
      | none =>
        dsimp only
        exact ih result
      | some pid =>
        dsimp only
        rw [ih (result ++ [pid]), ih ([] ++ [pid])]
        simp

/-- Decomposition of `simpleFilter` on an arbitrary accumulated list. -/
theorem simpleFilter_eq_append (S : List Value) (c : Criteria) :
    simpleFilter S c = (S ++ (simpleFilter [] c).1, (simpleFilter [] c).2) :=
  simpleFilterGo_append c c.elements S

/-- Elements of the kept set `temp` at the head of the evolving list are
never erased by the removal loop. -/
theorem pyRemoveLoop_cons_mem (temp : List Value) (x : Value) (hx : x ∈ temp) :
    ∀ (b a : List Value), pyRemoveLoop temp (x :: a) b = x :: pyRemoveLoop temp a b := by
  intro b
  induction b with
  | nil => intro a; rfl
  | cons e b ih =>
    intro a
    simp only [pyRemoveLoop, List.foldl_cons] at *
    by_cases he : e ∈ temp
    · rw [if_pos he, if_pos he]
      exact ih a
    · have hne : x ≠ e := fun h => he (h ▸ hx)
      rw [if_neg he, if_neg he, List.erase_cons_tail]
      · exact ih (a.erase e)
      · simp [hne]

/-- The removal loop of `andFilter`, iterating over a copy of the very list
it mutates, computes the filter keeping exactly the elements of `temp`. -/
theorem pyRemoveLoop_self (temp : List Value) :
    ∀ a : List Value, pyRemoveLoop temp a a = a.filter (fun x => decide (x ∈ temp)) := by
  intro a
  induction a with
  | nil => rfl
  | cons x a ih =>
    by_cases hx : x ∈ temp
    · have hstep : pyRemoveLoop temp (x :: a) (x :: a) = pyRemoveLoop temp (x :: a) a := by
        simp only [pyRemoveLoop, List.foldl_cons, if_pos hx]
      rw [hstep, pyRemoveLoop_cons_mem temp x hx a a, ih]
      simp [List.filter_cons, hx]
    · have hstep : pyRemoveLoop temp (x :: a) (x :: a) = pyRemoveLoop temp a a := by
        simp only [pyRemoveLoop, List.foldl_cons, if_neg hx, List.erase_cons_head]
      rw [hstep, ih]
      simp [List.filter_cons, hx]

/-- Membership in the list produced by `simpleFilter` splits into the
initial accumulated list and the matches of the criterion alone. -/
theorem mem_simpleFilter (S : List Value) (c : Criteria) (x : Value) :
    x ∈ (simpleFilter S c).1 ↔ x ∈ S ∨ x ∈ (simpleFilter [] c).1 := by
  rw [simpleFilter_eq_append]
  simp

/-- When evaluating the criterion alone raises no exception, `orFilter`
returns the deduplicated extension of the accumulated list. -/
theorem orFilter_ok (S : List Value) (c : Criteria) (h : (simpleFilter [] c).2 = none) :
    orFilter S c = ((simpleFilter S c).1.dedup, none) := by
  have h2 : (simpleFilter S c).2 = none := by
    rw [simpleFilter_eq_append]; exact h
  unfold orFilter
  rcases hS : simpleFilter S c with ⟨r, err⟩
  rw [hS] at h2
  cases err with
  | none => rfl
  | some e => simp at h2

/-- When evaluating the criterion raises, the exception escapes `orFilter`
and the caller's accumulated list keeps the appends made before the raise. -/
theorem orFilter_err (S : List Value) (c : Criteria) (err : PyError)
    (h : (simpleFilter [] c).2 = some err) :
    orFilter S c = (S ++ (simpleFilter [] c).1, some err) := by
  unfold orFilter
  rw [simpleFilter_eq_append S c, h]

/-- When the fresh evaluation succeeds, `andFilter` computes the filter of
the accumulated list by membership in the fresh evaluation. -/
theorem andFilter_ok (S : List Value) (c : Criteria) (temp : List Value)
    (h : simpleFilter [] c = (temp, none)) :
    andFilter S c = (S.filter (fun x => decide (x ∈ temp)), none) := by
  unfold andFilter
  rw [h]
  dsimp only
  rw [pyRemoveLoop_self]

/-- When the fresh evaluation raises, the exception escapes `andFilter`
before the caller's accumulated list is touched. -/
theorem andFilter_raises (S : List Value) (c : Criteria) (err : PyError)
    (h : (simpleFilter [] c).2 = some err) :
    andFilter S c = (S, some err) := by
  unfold andFilter
  rcases hS : simpleFilter [] c with ⟨r, e⟩
  rw [hS] at h
  cases e with
  | none => simp at h
  | some e' =>
    simp only [Option.some.injEq] at h
    subst h
    rfl

/-- Claim C1 (counterexample): the spec's own configuration-error example —
field ownerAddress with operator greater — does not fail at all: Python
orders the two address strings, the single record is scanned, it matches,
and `simpleFilter` returns normally with the record's productId, so no
`ConfigurationError` (indeed no error) is ever raised before or during the
scan. -/
theorem C1_counterexample :
    simpleFilter [] ownerGtCriteria = ([Value.int 1], none) := by decide

/-- Claim C1 (amended): no validation precedes the scan — an unrecognized
field name raises only upon inspecting the first candidate record, as a
`KeyError` for the event source and an `AttributeError` for the entity
source, with no productId appended. -/
theorem C1_error_only_at_first_record (c c' : Criteria)
    (args : List (String × Value)) (p : EntityRec) (rest rest' : List Rec)
    (hc : c.event = true) (he : c.elements = Rec.event args :: rest)
    (hf : dlookup args c.field = none)
    (hc' : c'.event = false) (he' : c'.elements = Rec.entity p :: rest')
    (hf' : getattrEntity p c'.field = none) :
    simpleFilter [] c = ([], some PyError.keyError) ∧
    simpleFilter [] c' = ([], some PyError.attributeError) := by
  constructor
  · unfold simpleFilter
    rw [he]
    simp [simpleFilterGo, evStep, hc, hf]
  · unfold simpleFilter
    rw [he']
    simp [simpleFilterGo, evStep, hc', hf']

/-- Claim C1 (witness): both halves instantiated on one-record sequences
with the unknown field name `missing`. -/
theorem C1_witness :
    simpleFilter [] unknownFieldEventCriteria = ([], some PyError.keyError) ∧
    simpleFilter [] unknownFieldEntityCriteria = ([], some PyError.attributeError) :=
  C1_error_only_at_first_record unknownFieldEventCriteria unknownFieldEntityCriteria
    [("pId", Value.int 7)]
    { productId := 1, name := "p", address := "0xA", CF := 5, isEnded := false }
    [] [] rfl rfl (by decide) rfl rfl (by decide)

/-- Claim C2 (counterexample): with two qualifying events referencing
productId 7, `simpleFilter` (the `evaluate` of a single criterion) hands
back a list containing 7 twice — the output is not deduplicated. -/
theorem C2_counterexample :
    ¬ ((simpleFilter [] dupEventsCriteria).1.Nodup) := by decide

/-- Claim C2 (amended): only the OR composition step deduplicates its
output (via `list(set(...))`); its result contains each productId at most
once whenever the evaluation returns normally. -/
theorem C2_or_output_nodup (S : List Value) (c : Criteria)
    (h : (simpleFilter [] c).2 = none) : ((orFilter S c).1).Nodup := by
  rw [orFilter_ok S c h]
  exact List.nodup_dedup _

/-- Claim C2 (witness): the OR step on the duplicate-producing criterion. -/
theorem C2_witness : ((orFilter [] dupEventsCriteria).1).Nodup :=
  C2_or_output_nodup [] dupEventsCriteria (by decide)

/-- Claim C3: `filterProducts` has the Python mutable-default-argument
defect — after a first no-argument session whose criterion matched
productId 7, the shared default list (which is the initial accumulated
list of the next independently started no-argument session) holds 7
instead of being empty. -/
theorem C3_mutable_default_leak :
    ((filterProductsFirstStep { filterProductsDefault := [] } matchSevenCriteria).1).filterProductsDefault
      = [Value.int 7] ∧ ([Value.int 7] : List Value) ≠ [] := by
  constructor
  · decide
  · decide

/-- Claim C4 (counterexample): starting from accumulated [1], an OR step
whose evaluation matches productId 7 on the first record and raises
`KeyError` on the second leaves the accumulated list as [1, 7] — the
partial append survives the failed call, so the failed evaluation is not
atomic with respect to the accumulated set. -/
theorem C4_counterexample :
    orFilter [Value.int 1] partialFailCriteria
        = ([Value.int 1, Value.int 7], some PyError.keyError) ∧
    ([Value.int 1, Value.int 7] : List Value) ≠ [Value.int 1] := by
  exact ⟨by decide, by decide⟩

/-- Claim C4 (amended): only the AND step is atomic on failure — it
evaluates the criterion into a fresh list and propagates the exception
with the accumulated list untouched — while a failed OR step leaves the
accumulated list extended by the appends made before the raise. -/
theorem C4_failure_effects (S : List Value) (c : Criteria) (err : PyError)
    (h : (simpleFilter [] c).2 = some err) :
    andFilter S c = (S, some err) ∧
    (orFilter S c).1 = S ++ (simpleFilter [] c).1 := by
  refine ⟨andFilter_raises S c err h, ?_⟩
  rw [orFilter_err S c err h]

/-- Claim C4 (witness): the failure effects at the concrete partial-failure
criterion, from accumulated [1]. -/
theorem C4_witness :
    andFilter [Value.int 1] partialFailCriteria = ([Value.int 1], some PyError.keyError) ∧
    (orFilter [Value.int 1] partialFailCriteria).1
      = [Value.int 1] ++ (simpleFilter [] partialFailCriteria).1 :=
  C4_failure_effects [Value.int 1] partialFailCriteria PyError.keyError (by decide)

/-- Claim C5: when the fresh evaluation returns normally, the AND step is
exactly set intersection — a productId is in the result iff it is in the
accumulated list and in the standalone evaluation of the criterion. -/
theorem C5_and_is_intersection (S : List Value) (c : Criteria)
    (h : (simpleFilter [] c).2 = none) (x : Value) :
    x ∈ (andFilter S c).1 ↔ x ∈ S ∧ x ∈ (simpleFilter [] c).1 := by
  have hok : simpleFilter [] c = ((simpleFilter [] c).1, none) := by
    rw [← h]
  rw [andFilter_ok S c _ hok]
  simp [List.mem_filter]

/-- Claim C5 (witness): AND from accumulated [7, 9] with a criterion whose
standalone evaluation is [7] keeps 7. -/
theorem C5_witness :
    Value.int 7 ∈ (andFilter [Value.int 7, Value.int 9] keepSevenCriteria).1 :=
  (C5_and_is_intersection [Value.int 7, Value.int 9] keepSevenCriteria (by decide)
      (Value.int 7)).mpr ⟨by decide, by decide⟩

/-- Claim C6: when the evaluation returns normally, the OR step is exactly
set union — a productId is in the result iff it is in the accumulated list
or in the standalone evaluation — and OR applied to an empty accumulated
list equals the standalone evaluation as a set. -/
theorem C6_or_is_union (S : List Value) (c : Criteria)
    (h : (simpleFilter [] c).2 = none) :
    (∀ x, x ∈ (orFilter S c).1 ↔ x ∈ S ∨ x ∈ (simpleFilter [] c).1) ∧
    ((orFilter [] c).1).toFinset = ((simpleFilter [] c).1).toFinset := by
  constructor
  · intro x
    rw [orFilter_ok S c h]
    simp only [List.mem_dedup]
    exact mem_simpleFilter S c x
  · rw [orFilter_ok [] c h]
    ext a
    simp only [List.mem_toFinset, List.mem_dedup]

/-- Claim C6 (witness): OR from accumulated [1] with a criterion matching
productId 7 contains 7. -/
theorem C6_witness :
    Value.int 7 ∈ (orFilter [Value.int 1] matchSevenCriteria).1 :=
  ((C6_or_is_union [Value.int 1] matchSevenCriteria (by decide)).1 (Value.int 7)).mpr
    (Or.inr (by decide))

/-- Claim C8: the OR step is idempotent in its criterion — composing twice
with the same criterion yields the same set as composing once. -/
theorem C8_or_idempotent (S : List Value) (c : Criteria)
    (h : (simpleFilter [] c).2 = none) :
    ((orFilter (orFilter S c).1 c).1).toFinset = ((orFilter S c).1).toFinset := by
  rw [orFilter_ok S c h, orFilter_ok _ c h]
  ext a
  simp only [List.mem_toFinset, List.mem_dedup]
  rw [mem_simpleFilter]
  simp only [List.mem_dedup]
  rw [mem_simpleFilter]
  tauto

/-- Claim C8 (witness): OR idempotence at accumulated [1] and the concrete
criterion matching productId 7. -/
theorem C8_witness :
    ((orFilter (orFilter [Value.int 1] matchSevenCriteria).1 matchSevenCriteria).1).toFinset
      = ((orFilter [Value.int 1] matchSevenCriteria).1).toFinset :=
  C8_or_idempotent [Value.int 1] matchSevenCriteria (by decide)

/-- Claim C9: in the heap-explicit rendering, when the fresh evaluation
succeeds the AND step returns the very reference it was given, the list at
that reference now holds exactly the elements that survived the in-place
removal (the filter by membership in the fresh evaluation), and every
other heap cell is untouched — no new collection is built for the result. -/
theorem C9_and_updates_in_place (σ : Nat → List Value) (r : Nat) (c : Criteria)
    (temp : List Value) (h : simpleFilter [] c = (temp, none)) :
    (andFilterRef σ r c).2.1 = r ∧
    (andFilterRef σ r c).1 r = (σ r).filter (fun x => decide (x ∈ temp)) ∧
    ∀ q, q ≠ r → (andFilterRef σ r c).1 q = σ q := by
  unfold andFilterRef
  rw [h]
  dsimp only
  refine ⟨rfl, ?_, ?_⟩
  · rw [if_pos rfl, pyRemoveLoop_self]
  · intro q hq
    rw [if_neg hq]

/-- Claim C9 (witness): a two-cell heap whose cell 0 holds [7, 9]; the AND
step with a criterion evaluating to [7] returns reference 0, cell 0 now
holds [7], and cell 1 is untouched. -/
theorem C9_witness :
    (andFilterRef (fun q => if q = 0 then [Value.int 7, Value.int 9] else [Value.int 3])
        0 keepSevenCriteria).2.1 = 0 ∧
    (andFilterRef (fun q => if q = 0 then [Value.int 7, Value.int 9] else [Value.int 3])
        0 keepSevenCriteria).1 0
      = ([Value.int 7, Value.int 9] : List Value).filter
          (fun x => decide (x ∈ ([Value.int 7] : List Value))) ∧
    (andFilterRef (fun q => if q = 0 then [Value.int 7, Value.int 9] else [Value.int 3])
        0 keepSevenCriteria).1 1
      = (fun q => if q = 0 then [Value.int 7, Value.int 9] else [Value.int 3]) 1 := by
  have h := C9_and_updates_in_place
    (fun q => if q = 0 then [Value.int 7, Value.int 9] else [Value.int 3])
    0 keepSevenCriteria [Value.int 7] (by decide)
  exact ⟨h.1, h.2.1, h.2.2 1 (by decide)⟩

/-- Claim C10: with an empty candidate sequence, `simpleFilter` returns the
accumulated list unchanged and raises nothing, whatever the field name and
operator are — invalid configurations go undetected when the source
supplies zero records. -/
theorem C10_empty_candidates_skip_validation (S : List Value) (c : Criteria)
    (h : c.elements = []) : simpleFilter S c = (S, none) := by
  unfold simpleFilter
  rw [h]
  rfl

/-- Claim C10 (witness): an unknown field under an ordering operator, with
zero candidate records, returns the accumulated list [3] with no error. -/
theorem C10_witness :
    simpleFilter [Value.int 3] emptyBogusCriteria = ([Value.int 3], none) :=
  C10_empty_candidates_skip_validation [Value.int 3] emptyBogusCriteria rfl

/-- On the event branch, an entity-shaped record is not subscriptable. -/
theorem evStep_event_entity (c : Criteria) (hc : c.event = true) (p : EntityRec) :
    evStep c (Rec.entity p) = Except.error PyError.typeError := by
  simp [evStep, hc]

/-- On the event branch, a missing compared field raises `KeyError`. -/
theorem evStep_event_nofield (c : Criteria) (hc : c.event = true)
    (args : List (String × Value)) (hf : dlookup args c.field = none) :
    evStep c (Rec.event args) = Except.error PyError.keyError := by
  simp [evStep, hc, hf]

/-- On the event branch, an unsupported comparison raises `TypeError`. -/
theorem evStep_event_badop (c : Criteria) (hc : c.event = true)
    (args : List (String × Value)) (v : Value) (hf : dlookup args c.field = some v)
    (ha : applyOp c.op v c.value = none) :
    evStep c (Rec.event args) = Except.error PyError.typeError := by
  simp [evStep, hc, hf, ha]

/-- On the event branch, a record failing the test contributes nothing. -/
theorem evStep_event_nomatch (c : Criteria) (hc : c.event = true)
    (args : List (String × Value)) (v : Value) (hf : dlookup args c.field = some v)
    (ha : applyOp c.op v c.value = some false) :
    evStep c (Rec.event args) = Except.ok none := by
  simp [evStep, hc, hf, ha]

/-- On the event branch, a matching record without a `pId` key raises
`KeyError`. -/
theorem evStep_event_nopid (c : Criteria) (hc : c.event = true)
    (args : List (String × Value)) (v : Value) (hf : dlookup args c.field = some v)
    (ha : applyOp c.op v c.value = some true) (hp : dlookup args "pId" = none) :
    evStep c (Rec.event args) = Except.error PyError.keyError := by
  simp [evStep, hc, hf, ha, hp]

/-- On the event branch, a matching record contributes its associated
productId. -/
theorem evStep_event_match (c : Criteria) (hc : c.event = true)
    (args : List (String × Value)) (v pid : Value) (hf : dlookup args c.field = some v)
    (ha : applyOp c.op v c.value = some true) (hp : dlookup args "pId" = some pid) :
    evStep c (Rec.event args) = Except.ok (some pid) := by
  simp [evStep, hc, hf, ha, hp]

/-- Characterization of the loop's output for an event-source criterion:
when the scan completes without raising, a value is in the produced list
iff some event of the scanned sequence carries it as `pId` and satisfies
the operator/value test on the compared field. -/
theorem simpleFilterGo_mem_event (c : Criteria) (hc : c.event = true) :
    ∀ es : List Rec, (simpleFilterGo c es []).2 = none →
      ∀ x, x ∈ (simpleFilterGo c es []).1 ↔
        ∃ args, Rec.event args ∈ es ∧ dlookup args "pId" = some x ∧
          ∃ v, dlookup args c.field = some v ∧ applyOp c.op v c.value = some true := by
  intro es
  induction es with
  | nil =>
    intro _ x
    simp [simpleFilterGo]
  | cons e es ih =>
    intro herr x
    cases e with
    | entity p =>
      rw [show simpleFilterGo c (Rec.entity p :: es) [] = ([], some PyError.typeError) from by
        simp [simpleFilterGo, evStep_event_entity c hc p]] at herr
      simp at herr
    | event args =>
      cases hf : dlookup args c.field with
      | none =>
        rw [show simpleFilterGo c (Rec.event args :: es) [] = ([], some PyError.keyError) from by
          simp [simpleFilterGo, evStep_event_nofield c hc args hf]] at herr
        simp at herr
      | some v =>
        cases ha : applyOp c.op v c.value with
        | none =>
          rw [show simpleFilterGo c (Rec.event args :: es) [] = ([], some PyError.typeError) from by
            simp [simpleFilterGo, evStep_event_badop c hc args v hf ha]] at herr
          simp at herr
        | some b =>
          cases b with
          | false =>
            have hred : simpleFilterGo c (Rec.event args :: es) [] = simpleFilterGo c es [] := by
              simp [simpleFilterGo, evStep_event_nomatch c hc args v hf ha]
            rw [hred] at herr ⊢
            rw [ih herr x]
            constructor
            · rintro ⟨a, hmem, hrest⟩
              exact ⟨a, List.mem_cons_of_mem _ hmem, hrest⟩
            · rintro ⟨a, hmem, hpid, v', hv', htrue⟩
              rcases List.mem_cons.mp hmem with heq | hmem'
              · have haeq : a = args := by injection heq
                subst haeq
                rw [hf] at hv'
                injection hv' with hv''
                subst hv''
                rw [ha] at htrue
                exact absurd htrue (by simp)
              · exact ⟨a, hmem', hpid, v', hv', htrue⟩
          | true =>
            cases hp : dlookup args "pId" with
            | none =>
              rw [show simpleFilterGo c (Rec.event args :: es) [] = ([], some PyError.keyError) from by
                simp [simpleFilterGo, evStep_event_nopid c hc args v hf ha hp]] at herr
              simp at herr
            | some pid =>
              have hred : simpleFilterGo c (Rec.event args :: es) []
                  = simpleFilterGo c es [pid] := by
                simp [simpleFilterGo, evStep_event_match c hc args v pid hf ha hp]
              rw [hred] at herr ⊢
              rw [simpleFilterGo_append c es [pid]] at herr ⊢
              dsimp only at herr ⊢
              simp only [List.mem_append, List.mem_singleton]
              rw [ih herr x]
              constructor
              · rintro (rfl | ⟨a, hmem, hrest⟩)
                · exact ⟨args, List.mem_cons_self _ _, hp, v, hf, ha⟩
                · exact ⟨a, List.mem_cons_of_mem _ hmem, hrest⟩
              · rintro ⟨a, hmem, hpid, v', hv', htrue⟩
                rcases List.mem_cons.mp hmem with heq | hmem'
                · have haeq : a = args := by injection heq
                  subst haeq
                  rw [hp] at hpid
                  injection hpid with hpid'
                  exact Or.inl hpid'.symm
                · exact Or.inr ⟨a, hmem', hpid, v', hv', htrue⟩

/-- Claim C7: for an event-source criterion whose scan completes without
raising, a productId appears in the output of `simpleFilter` iff some
event of the candidate sequence carries it as its associated `pId` and
satisfies the operator/value test on the compared payload field. -/
theorem C7_event_source_membership (c : Criteria) (hc : c.event = true)
    (h : (simpleFilter [] c).2 = none) (x : Value) :
    x ∈ (simpleFilter [] c).1 ↔
      ∃ args, Rec.event args ∈ c.elements ∧ dlookup args "pId" = some x ∧
        ∃ v, dlookup args c.field = some v ∧ applyOp c.op v c.value = some true :=
  simpleFilterGo_mem_event c hc c.elements h x

/-- Claim C7 (witness): three RawMaterialUsed events all referencing
productId 7 with exactly one satisfying CF > 50; the output is the
one-element list [7], and membership of 7 follows from the theorem. -/
theorem C7_witness :
    Value.int 7 ∈ (simpleFilter [] threeEventsCriteria).1 ∧
    (simpleFilter [] threeEventsCriteria).1 = [Value.int 7] :=
  ⟨(C7_event_source_membership threeEventsCriteria rfl (by decide) (Value.int 7)).mpr
      ⟨[("pId", Value.int 7), ("CF", Value.int 100)], by decide, by decide,
        Value.int 100, by decide, by decide⟩,
    by decide⟩
